import Mathlib

/-!
Verification development for the AWS Lambda S3 file-manager backend
(`src/lambda_function.py`).

Modelling conventions of the shallow embedding:
* Python `str` is Lean `String`; string manipulation is done on the
  underlying character lists (`String.data`), matching Python's
  code-point-level semantics for slicing, `startswith`, `endswith`,
  `split(sep, 1)` and `replace(old, new, 1)`.
* Python `bytes` is `List Nat` with every element below 256.
* Python dictionaries are association lists with `List.lookup`.
* The external collaborators are modelled as pure functions and explicit
  state: the base64 codec (`base64.b64encode`/`b64decode`) and the UTF-8
  codec (`bytes.decode`) are implemented directly; the S3 object store is
  a key/value association list `Storage`, and every S3 API call made by
  the handler is recorded in an `S3Call` trace; the Secrets Manager
  fetch of `get_users` is a value passed in as `store`.
* Exceptions becoming `(None, None)` in `authenticate`, or a 500 at the
  handler's outer boundary, are modelled by `Option` results; the storage
  collaborator itself is modelled as non-failing, so the two
  storage-error 500 paths of the delete operations do not arise in the
  model (no claim concerns them).
-/

/-- Bytes of a Python `bytes` value: naturals, each below 256. -/
abbrev Bytes := List Nat

/-- Python `str.startswith`, on the character lists of the strings. -/
def pyStartsWith (s pre : String) : Bool := pre.data.isPrefixOf s.data

/-- Python `str.endswith`, on the character lists of the strings. -/
def pyEndsWith (s suf : String) : Bool := suf.data.isSuffixOf s.data

/-- Python `s[n:]` (drop the first `n` code points). -/
def pyDrop (s : String) (n : Nat) : String := String.mk (s.data.drop n)

/-- Python `s.split(sep, 1)` when `sep` occurs in `s`: the parts before and
after the first occurrence.  `none` models the one-element result list (no
occurrence), whose index `[1]` raises in Python. -/
def splitOnce? (sep : Char) : List Char → Option (List Char × List Char)
  | [] => none
  | c :: rest =>
      if c = sep then some ([], rest)
      else (splitOnce? sep rest).map (fun p => (c :: p.1, p.2))

/-- Python `s.replace(old, new, 1)` on character lists: replace the leftmost
occurrence of `old` (an empty `old` matches at position 0). -/
def replaceFirstL (old new : List Char) : List Char → List Char
  | [] => if old.isEmpty then new else []
  | c :: rest =>
      if old.isPrefixOf (c :: rest) then new ++ (c :: rest).drop old.length
      else c :: replaceFirstL old new rest

/-- Python `s.replace(old, new, 1)` on strings. -/
def pyReplaceFirst (s old new : String) : String :=
  String.mk (replaceFirstL old.data new.data s.data)

/-- Python truthiness of an optional string (`None` and `""` are falsy). -/
def truthyS : Option String → Bool
  | none => false
  | some s => !s.data.isEmpty

/-! ### Base64 codec (external collaborator `base64`) -/

/-- The standard base64 alphabet. -/
def b64Alphabet : List Char :=
  "ABCDEFGHIJKLMNOPQRSTUVWXYZabcdefghijklmnopqrstuvwxyz0123456789+/".data

/-- Sextet value to base64 character. -/
def encChar (n : Nat) : Char := b64Alphabet.getD n 'A'

/-- Base64 character to sextet value, `none` for non-alphabet characters. -/
def decChar? (c : Char) : Option Nat := b64Alphabet.findIdx? (fun d => d == c)

/-- Base64-encode a byte list (RFC 4648, with `=` padding). -/
def b64encodeL : Bytes → List Char
  | [] => []
  | [a] => [encChar (a / 4), encChar (a % 4 * 16), '=', '=']
  | [a, b] => [encChar (a / 4), encChar (a % 4 * 16 + b / 16), encChar (b % 16 * 4), '=']
  | a :: b :: c :: rest =>
      encChar (a / 4) :: encChar (a % 4 * 16 + b / 16) ::
        encChar (b % 16 * 4 + c / 64) :: encChar (c % 64) :: b64encodeL rest

/-- Python `base64.b64encode(bs).decode()`. -/
def b64encode (bs : Bytes) : String := String.mk (b64encodeL bs)

/-- Decode base64 four-character groups; `=` is accepted only as trailing
padding.  `none` models the `binascii.Error` raised on malformed input. -/
def b64decodeGroups? : List Char → Option Bytes
  | [] => some []
  | c1 :: c2 :: c3 :: c4 :: rest =>
      match decChar? c1, decChar? c2 with
      | some v1, some v2 =>
          if c3 = '=' then
            if c4 = '=' then
              if rest = [] then some [v1 * 4 + v2 / 16] else none
            else none
          else
            match decChar? c3 with
            | some v3 =>
                if c4 = '=' then
                  if rest = [] then some [v1 * 4 + v2 / 16, v2 % 16 * 16 + v3 / 4]
                  else none
                else
                  match decChar? c4 with
                  | some v4 =>
                      (b64decodeGroups? rest).map
                        (fun bs => (v1 * 4 + v2 / 16) :: (v2 % 16 * 16 + v3 / 4) ::
                          (v3 % 4 * 64 + v4) :: bs)
                  | none => none
            | none => none
      | _, _ => none
  | _ => none

/-- Python `base64.b64decode(s)` (default `validate=False`): characters
outside the alphabet and `=` are discarded first, then the remainder is
decoded in four-character groups.  `none` models the raised `binascii.Error`. -/
def pyB64decode? (s : String) : Option Bytes :=
  b64decodeGroups? (s.data.filter (fun c => c == '=' || (decChar? c).isSome))

/-! ### UTF-8 codec (external collaborator `bytes.decode` / implicit `str` encoding) -/

/-- UTF-8 encoding of one code point. -/
def utf8EncodeChar (c : Char) : List Nat :=
  if c.toNat < 128 then [c.toNat]
  else if c.toNat < 2048 then [192 + c.toNat / 64, 128 + c.toNat % 64]
  else if c.toNat < 65536 then
    [224 + c.toNat / 4096, 128 + c.toNat / 64 % 64, 128 + c.toNat % 64]
  else
    [240 + c.toNat / 262144, 128 + c.toNat / 4096 % 64, 128 + c.toNat / 64 % 64, 128 + c.toNat % 64]

/-- UTF-8 encoding of a character list. -/
def utf8EncodeL (cs : List Char) : List Nat := cs.flatMap utf8EncodeChar

/-- UTF-8 encoding of a string. -/
def utf8Encode (s : String) : List Nat := utf8EncodeL s.data

/-- Whether a byte is a UTF-8 continuation byte. -/
def ContByte (b : Nat) : Prop := 128 ≤ b ∧ b < 192

instance : DecidablePred ContByte := fun _ => instDecidableAnd

mutual

/-- Strict UTF-8 decoding (overlong forms, surrogates and out-of-range code
points rejected); `none` models Python's `UnicodeDecodeError`.  The two-,
three- and four-byte forms are handled by the mutually recursive helpers. -/
def utf8Decode? : List Nat → Option (List Char)
  | [] => some []
  | b :: l =>
      if b < 128 then (utf8Decode? l).map (fun cs => Char.ofNat b :: cs)
      else if b < 194 then none
      else if b < 224 then utf8Dec2 b l
      else if b < 240 then utf8Dec3 b l
      else if b < 245 then utf8Dec4 b l
      else none

/-- Decode the continuation of a two-byte UTF-8 form with lead byte `b`. -/
def utf8Dec2 (b : Nat) : List Nat → Option (List Char)
  | b1 :: l2 =>
      if ContByte b1 then
        (utf8Decode? l2).map (fun cs => Char.ofNat ((b - 192) * 64 + (b1 - 128)) :: cs)
      else none
  | [] => none

/-- Decode the continuation of a three-byte UTF-8 form with lead byte `b`. -/
def utf8Dec3 (b : Nat) : List Nat → Option (List Char)
  | b1 :: b2 :: l2 =>
      if ContByte b1 ∧ ContByte b2 ∧
          2048 ≤ (b - 224) * 4096 + (b1 - 128) * 64 + (b2 - 128) ∧
          ¬(55296 ≤ (b - 224) * 4096 + (b1 - 128) * 64 + (b2 - 128) ∧
            (b - 224) * 4096 + (b1 - 128) * 64 + (b2 - 128) < 57344) then
        (utf8Decode? l2).map
          (fun cs => Char.ofNat ((b - 224) * 4096 + (b1 - 128) * 64 + (b2 - 128)) :: cs)
      else none
  | _ => none

/-- Decode the continuation of a four-byte UTF-8 form with lead byte `b`. -/
def utf8Dec4 (b : Nat) : List Nat → Option (List Char)
  | b1 :: b2 :: b3 :: l2 =>
      if ContByte b1 ∧ ContByte b2 ∧ ContByte b3 ∧
          65536 ≤ (b - 240) * 262144 + (b1 - 128) * 4096 + (b2 - 128) * 64 + (b3 - 128) ∧
          (b - 240) * 262144 + (b1 - 128) * 4096 + (b2 - 128) * 64 + (b3 - 128) < 1114112 then
        (utf8Decode? l2).map
          (fun cs =>
            Char.ofNat ((b - 240) * 262144 + (b1 - 128) * 4096 + (b2 - 128) * 64 + (b3 - 128)) :: cs)
      else none
  | _ => none

end

/-! ### JSON serialization (external collaborator `json.dumps`) -/

/-- Lowercase hexadecimal digit. -/
def hexDigit (n : Nat) : Char := "0123456789abcdef".data.getD n '0'

/-- Four-digit lowercase hexadecimal rendering. -/
def hex4 (n : Nat) : List Char :=
  [hexDigit (n / 4096 % 16), hexDigit (n / 256 % 16), hexDigit (n / 16 % 16), hexDigit (n % 16)]

/-- JSON escaping of one character, as `json.dumps` with its default
`ensure_ascii=True` produces it (astral code points become surrogate pairs). -/
def jsonEscapeChar (c : Char) : List Char :=
  if c = '"' then ['\\', '"']
  else if c = '\\' then ['\\', '\\']
  else if c = '\n' then ['\\', 'n']
  else if c = '\t' then ['\\', 't']
  else if c = '\r' then ['\\', 'r']
  else if c.toNat = 8 then ['\\', 'b']
  else if c.toNat = 12 then ['\\', 'f']
  else if c.toNat < 32 || 126 < c.toNat then
    if c.toNat < 65536 then '\\' :: 'u' :: hex4 c.toNat
    else '\\' :: 'u' :: hex4 (55296 + (c.toNat - 65536) / 1024) ++
      '\\' :: 'u' :: hex4 (56320 + (c.toNat - 65536) % 1024)
  else [c]

/-- JSON string literal. -/
def jsonStr (s : String) : String := String.mk ('"' :: s.data.flatMap jsonEscapeChar ++ ['"'])

/-- JSON array of strings, with `json.dumps`'s default `", "` separator. -/
def jsonArray (l : List String) : String :=
  "[" ++ String.intercalate ", " (l.map jsonStr) ++ "]"

/-- The body `json.dumps({"error": msg})` used by every error response. -/
def jsonErrorObj (msg : String) : String := "\x7b\"error\": " ++ jsonStr msg ++ "\x7d"

/-! ### Data model -/

/-- One record of the user directory held in Secrets Manager. -/
structure UserRec where
  password : String
  root_folder : String
  deriving DecidableEq

/-- The user directory: the JSON document `{username: {password, root_folder}}`. -/
abbrev Users := List (String × UserRec)

/-- The request envelope delivered by the transport (API Gateway event). -/
structure Event where
  httpMethod : String
  path : String
  queryStringParameters : Option (List (String × String))
  headers : Option (List (String × String))
  body : Option String
  deriving DecidableEq

/-- The response envelope built by `response`.  The constant CORS headers
are attached to every response and are not repeated in the model; only the
variable `Content-Type` header is kept. -/
structure Resp where
  statusCode : Nat
  contentType : Option String
  body : String
  isBase64Encoded : Bool
  deriving DecidableEq

/-- The `body` argument of `response`: Python passes either `str` or `bytes`. -/
inductive PyBody where
  | str (s : String)
  | bytes (b : Bytes)
  deriving DecidableEq

/-- Helper `response(status_code, body, is_base64, content_type)`: a `bytes`
body (always passed together with `is_base64=True` in the handler) is
base64-encoded into the envelope's body string. -/
def response (statusCode : Nat) (body : PyBody) (is_base64 : Bool) (content_type : Option String) : Resp :=
  ⟨statusCode, content_type,
    (match body with
     | PyBody.str s => s
     | PyBody.bytes b => b64encode b),
    is_base64⟩

/-- The S3 bucket contents: keys mapped to object bytes. -/
abbrev Storage := List (String × Bytes)

/-- One S3 API call issued by the handler (the effect trace). -/
inductive S3Call where
  | putObject (key : String) (body : Bytes)
  | getObject (key : String)
  | listObjectsV2 (pfx : String) (delim : Option String)
  | deleteObject (key : String)
  | deleteObjects (keys : List String)
  deriving DecidableEq

/-- The `Contents` keys of `list_objects_v2(Prefix=pfx)`. -/
def s3listKeys (st : Storage) (pfx : String) : List String :=
  (st.map Prod.fst).filter (fun k => pyStartsWith k pfx)

/-- The bytes of `get_object`, `none` modelling the `NoSuchKey` error. -/
def s3get (st : Storage) (key : String) : Option Bytes := st.lookup key

/-- Remove a key from storage. -/
def eraseKey (st : Storage) (key : String) : Storage := st.filter (fun e => !(e.1 == key))

/-- Effect of `put_object`: overwrite the key. -/
def s3put (st : Storage) (key : String) (val : Bytes) : Storage := (key, val) :: eraseKey st key

/-- Effect of the batch `delete_objects`. -/
def s3deleteObjects (st : Storage) (keys : List String) : Storage :=
  st.filter (fun e => !(keys.contains e.1))

/-- Segment of a character list up to and including its first `'/'`. -/
def takeUntilSlash : List Char → Option (List Char)
  | [] => none
  | c :: rest =>
      if c = '/' then some [c] else (takeUntilSlash rest).map (fun l => c :: l)

/-- Duplicate removal keeping first occurrences. -/
def dedupFirst : List String → List String
  | [] => []
  | x :: xs => x :: dedupFirst (xs.filter (fun y => !(y == x)))
termination_by l => l.length
decreasing_by
  simp only [List.length_cons]
  exact Nat.lt_succ_of_le (List.length_filter_le _ xs)

/-- The `CommonPrefixes` of `list_objects_v2(Prefix=pfx, Delimiter="/")`:
for every key under `pfx` whose remainder contains `'/'`, the prefix up to
and including that first `'/'`. -/
def s3CommonPfxs (st : Storage) (pfx : String) : List String :=
  dedupFirst ((st.map Prod.fst).filterMap (fun k =>
    if pyStartsWith k pfx then
      (takeUntilSlash (k.data.drop pfx.data.length)).map (fun seg => pfx ++ String.mk seg)
    else none))

/-! ### Authentication and the user-directory cache -/

/-- Python truthiness of the `_cached_users` global (`None` and the empty
dictionary are both falsy). -/
def usersTruthy : Option Users → Bool
  | none => false
  | some u => !u.isEmpty

/-- Embedding of `get_users()` with the process-wide cache made explicit:
`cached` is the current `_cached_users`, `store` the secret's user
directory.  Returns the value, the new cache, and whether a secret-store
fetch was issued. -/
def get_users (cached : Option Users) (store : Users) : Users × Option Users × Bool :=
  if usersTruthy cached then (cached.getD [], cached, false)
  else (store, some store, true)

/-- The credential-parsing pipeline inside `authenticate`'s `try` block:
`base64.b64decode(auth.split(" ", 1)[1]).decode()` then `split(":", 1)`.
`none` models any raised exception (caught and turned into `(None, None)`). -/
def basicCreds? (auth : String) : Option (String × String) :=
  match splitOnce? ' ' auth.data with
  | none => none
  | some (_, rest) =>
      match pyB64decode? (String.mk rest) with
      | none => none
      | some bs =>
          match utf8Decode? bs with
          | none => none
          | some raw =>
              match splitOnce? ':' raw with
              | none => none
              | some (u, p) => some (String.mk u, String.mk p)

/-- Embedding of `authenticate(event)`; `none` is the `(None, None)` result. -/
def authenticate (ev : Event) (users : Users) : Option (String × String) :=
  let headers := ev.headers.getD []
  match headers.lookup "Authorization" with
  | none => none
  | some auth =>
      if auth.data.isEmpty || !pyStartsWith auth "Basic " then none
      else
        match basicCreds? auth with
        | none => none
        | some (username, password) =>
            match users.lookup username with
            | some urec =>
                if urec.password == password then some (username, urec.root_folder) else none
            | none => none

/-! ### Key normalization and the list-files filter -/

/-- Embedding of `normalize_key(folder, filename)`. -/
def normalize_key (folder filename : String) : String :=
  if pyStartsWith filename folder then filename else folder ++ filename

/-- The accumulation loop of the `/list-files` operation over the listed
keys: strip `folder`, then keep top-level names (no further `'/'`) when the
`prefix` parameter is falsy, else keep non-empty slash-free remainders after
dropping `len(prefix)` characters. -/
def listFilesFilter (folder : String) (pfx? : Option String) (keys : List String) : List String :=
  keys.filterMap (fun k =>
    let key := pyReplaceFirst k folder ""
    if !truthyS pfx? then
      if !key.data.contains '/' then some key else none
    else
      let subpath := pyDrop key (pfx?.getD "").length
      if !subpath.data.isEmpty && !subpath.data.contains '/' then some subpath else none)

/-- Modelled from the spec: the in-memory zip archive the external
`zipfile` library builds from (entry name, bytes) pairs in the
`/download-folder` operation.  Its byte layout is outside the repository's
code and outside every claim; it is modelled as an injective flat
serialization of the entries. -/
def zipArchive (entries : List (String × Bytes)) : Bytes :=
  entries.flatMap (fun e => utf8Encode e.1 ++ [0] ++ e.2 ++ [1])

/-! ### The Lambda handler -/

/-- Embedding of `lambda_handler(event, context)` over an explicit bucket
state, returning the response, the new bucket state, and the trace of S3
calls issued. -/
def lambda_handler (ev : Event) (users : Users) (st : Storage) : Resp × Storage × List S3Call :=
  let method := ev.httpMethod
  let path := ev.path
  let params := ev.queryStringParameters.getD []
  let filename? := params.lookup "filename"
  let pfx? := params.lookup "prefix"
  if method == "OPTIONS" then
    (response 200 (PyBody.str "") false none, st, [])
  else
    match authenticate ev users with
    | none =>
        (response 401 (PyBody.str (jsonErrorObj "Unauthorized")) false (some "application/json"), st, [])
    | some (user, folder) =>
        if user.data.isEmpty then
          (response 401 (PyBody.str (jsonErrorObj "Unauthorized")) false (some "application/json"), st, [])
        else if pyEndsWith path "/put" && (method == "PUT") then
          if truthyS filename? then
            let filename := filename?.getD ""
            match pyB64decode? (ev.body.getD "") with
            | none =>
                (response 500 (PyBody.str (jsonErrorObj "Invalid base64-encoded string")) false
                  (some "application/json"), st, [])
            | some decoded =>
                let key := normalize_key folder filename
                let content := if pyEndsWith filename "/" && decoded.isEmpty then [32] else decoded
                let msg := if pyEndsWith filename "/" then "Folder \"" ++ filename ++ "\" created"
                           else "File \"" ++ filename ++ "\" uploaded"
                (response 200 (PyBody.str msg) false none, s3put st key content,
                  [S3Call.putObject key content])
          else
            (response 400 (PyBody.str (jsonErrorObj "Missing filename")) false (some "application/json"), st, [])
        else if pyEndsWith path "/get" && (method == "GET") && truthyS filename? then
          let filename := filename?.getD ""
          let key := normalize_key folder filename
          match s3get st key with
          | some objBytes =>
              (response 200 (PyBody.bytes objBytes) true (some "application/octet-stream"), st,
                [S3Call.getObject key])
          | none =>
              (response 404 (PyBody.str (jsonErrorObj "File not found")) false (some "application/json"),
                st, [S3Call.getObject key])
        else if pyEndsWith path "/list" && (method == "GET") then
          let folders := (s3CommonPfxs st folder).map (fun p => pyReplaceFirst p folder "")
          (response 200 (PyBody.str (jsonArray folders)) false (some "application/json"), st,
            [S3Call.listObjectsV2 folder (some "/")])
        else if pyEndsWith path "/list-files" && (method == "GET") then
          let searchPfx := normalize_key folder (pfx?.getD "")
          let keys := s3listKeys st searchPfx
          let files := listFilesFilter folder pfx? keys
          (response 200 (PyBody.str (jsonArray files)) false (some "application/json"), st,
            [S3Call.listObjectsV2 searchPfx none])
        else if pyEndsWith path "/download-folder" && (method == "GET") && truthyS pfx? then
          let p := pfx?.getD ""
          let keys := s3listKeys st (normalize_key folder p)
          let entries := keys.map (fun k => (pyReplaceFirst k folder "", (s3get st k).getD []))
          (response 200 (PyBody.bytes (zipArchive entries)) true (some "application/zip"), st,
            S3Call.listObjectsV2 (normalize_key folder p) none :: keys.map S3Call.getObject)
        else if pyEndsWith path "/delete" && (method == "DELETE") && truthyS filename? then
          let filename := filename?.getD ""
          let key := normalize_key folder filename
          (response 200 (PyBody.str ("File \"" ++ filename ++ "\" deleted")) false none,
            eraseKey st key, [S3Call.deleteObject key])
        else if pyEndsWith path "/delete-folder" && (method == "DELETE") && truthyS pfx? then
          let p := pfx?.getD ""
          let keys := s3listKeys st (normalize_key folder p)
          if keys.isEmpty then
            (response 200 (PyBody.str ("Folder \"" ++ p ++ "\" deleted")) false none, st,
              [S3Call.listObjectsV2 (normalize_key folder p) none])
          else
            (response 200 (PyBody.str ("Folder \"" ++ p ++ "\" deleted")) false none,
              s3deleteObjects st keys,
              [S3Call.listObjectsV2 (normalize_key folder p) none, S3Call.deleteObjects keys])
        else
          (response 405 (PyBody.str (jsonErrorObj "Unsupported operation")) false (some "application/json"),
            st, [])

/-! ### Lemmas about the base64 codec -/

theorem decChar_encChar : ∀ v, v < 64 → decChar? (encChar v) = some v := by decide

theorem decChar_pad : decChar? '=' = none := by decide

theorem encChar_ne_pad (v : Nat) (h : v < 64) : ¬ encChar v = '=' := by
  intro he
  have := decChar_encChar v h
  rw [he, decChar_pad] at this
  exact Option.noConfusion this

theorem b64decodeGroups_encode (B : Bytes) (h : ∀ b ∈ B, b < 256) :
    b64decodeGroups? (b64encodeL B) = some B := by
  induction B using b64encodeL.induct with
  | case1 => rfl
  | case2 a =>
      have ha : a < 256 := h a (by simp)
      have d1 : decChar? (encChar (a / 4)) = some (a / 4) := decChar_encChar _ (by omega)
      have d2 : decChar? (encChar (a % 4 * 16)) = some (a % 4 * 16) := decChar_encChar _ (by omega)
      simp only [b64encodeL, b64decodeGroups?, d1, d2, if_pos rfl, if_true]
      simp only [Option.some.injEq, List.cons.injEq, and_true]
      omega
  | case3 a b =>
      have ha : a < 256 := h a (by simp)
      have hb : b < 256 := h b (by simp)
      have d1 : decChar? (encChar (a / 4)) = some (a / 4) := decChar_encChar _ (by omega)
      have d2 : decChar? (encChar (a % 4 * 16 + b / 16)) = some (a % 4 * 16 + b / 16) :=
        decChar_encChar _ (by omega)
      have d3 : decChar? (encChar (b % 16 * 4)) = some (b % 16 * 4) := decChar_encChar _ (by omega)
      have n3 : ¬ encChar (b % 16 * 4) = '=' := encChar_ne_pad _ (by omega)
      simp only [b64encodeL, b64decodeGroups?, d1, d2, d3, n3, if_false, if_pos rfl, if_true,
        ite_false]
      simp only [Option.some.injEq, List.cons.injEq, and_true]
      omega
  | case4 a b c rest ih =>
      have ha : a < 256 := h a (by simp)
      have hb : b < 256 := h b (by simp)
      have hc : c < 256 := h c (by simp)
      have hrest : ∀ x ∈ rest, x < 256 := fun x hx => h x (by simp [hx])
      have d1 : decChar? (encChar (a / 4)) = some (a / 4) := decChar_encChar _ (by omega)
      have d2 : decChar? (encChar (a % 4 * 16 + b / 16)) = some (a % 4 * 16 + b / 16) :=
        decChar_encChar _ (by omega)
      have d3 : decChar? (encChar (b % 16 * 4 + c / 64)) = some (b % 16 * 4 + c / 64) :=
        decChar_encChar _ (by omega)
      have d4 : decChar? (encChar (c % 64)) = some (c % 64) := decChar_encChar _ (by omega)
      have n3 : ¬ encChar (b % 16 * 4 + c / 64) = '=' := encChar_ne_pad _ (by omega)
      have n4 : ¬ encChar (c % 64) = '=' := encChar_ne_pad _ (by omega)
      simp only [b64encodeL, b64decodeGroups?, d1, d2, d3, d4, n3, n4, if_false, if_true,
        ite_false, ih hrest, Option.map_some, Option.map_some']
      simp only [Option.some.injEq, List.cons.injEq, eq_self_iff_true, and_true]
      omega

theorem mem_b64encodeL (B : Bytes) (h : ∀ b ∈ B, b < 256) :
    ∀ c ∈ b64encodeL B, (c == '=' || (decChar? c).isSome) = true := by
  induction B using b64encodeL.induct with
  | case1 => intro c hc; exact absurd hc (List.not_mem_nil c)
  | case2 a =>
      have ha : a < 256 := h a (by simp)
      intro c hc
      simp only [b64encodeL, List.mem_cons, List.not_mem_nil, or_false] at hc
      rcases hc with rfl | rfl | rfl | rfl
      · rw [decChar_encChar _ (by omega : a / 4 < 64)]; simp
      · rw [decChar_encChar _ (by omega : a % 4 * 16 < 64)]; simp
      · simp
      · simp
  | case3 a b =>
      have ha : a < 256 := h a (by simp)
      have hb : b < 256 := h b (by simp)
      intro c hc
      simp only [b64encodeL, List.mem_cons, List.not_mem_nil, or_false] at hc
      rcases hc with rfl | rfl | rfl | rfl
      · rw [decChar_encChar _ (by omega : a / 4 < 64)]; simp
      · rw [decChar_encChar _ (by omega : a % 4 * 16 + b / 16 < 64)]; simp
      · rw [decChar_encChar _ (by omega : b % 16 * 4 < 64)]; simp
      · simp
  | case4 a b c rest ih =>
      have ha : a < 256 := h a (by simp)
      have hb : b < 256 := h b (by simp)
      have hc : c < 256 := h c (by simp)
      have hrest : ∀ x ∈ rest, x < 256 := fun x hx => h x (by simp [hx])
      intro d hd
      simp only [b64encodeL, List.mem_cons] at hd
      rcases hd with rfl | rfl | rfl | rfl | hd
      · rw [decChar_encChar _ (by omega : a / 4 < 64)]; simp
      · rw [decChar_encChar _ (by omega : a % 4 * 16 + b / 16 < 64)]; simp
      · rw [decChar_encChar _ (by omega : b % 16 * 4 + c / 64 < 64)]; simp
      · rw [decChar_encChar _ (by omega : c % 64 < 64)]; simp
      · exact ih hrest d hd

theorem pyB64decode_encode (B : Bytes) (h : ∀ b ∈ B, b < 256) :
    pyB64decode? (b64encode B) = some B := by
  show b64decodeGroups? (List.filter _ (String.mk (b64encodeL B)).data) = some B
  rw [show (String.mk (b64encodeL B)).data = b64encodeL B from rfl]
  rw [List.filter_eq_self.mpr (mem_b64encodeL B h)]
  exact b64decodeGroups_encode B h

/-! ### Lemmas about the UTF-8 codec -/

theorem char_valid_range (c : Char) :
    c.toNat < 55296 ∨ 57343 < c.toNat ∧ c.toNat < 1114112 := c.valid

theorem utf8EncodeChar_lt (c : Char) : ∀ b ∈ utf8EncodeChar c, b < 256 := by
  have hv := char_valid_range c
  intro b hb
  unfold utf8EncodeChar at hb
  by_cases h1 : c.toNat < 128
  · rw [if_pos h1] at hb
    simp only [List.mem_singleton] at hb
    omega
  · rw [if_neg h1] at hb
    by_cases h2 : c.toNat < 2048
    · rw [if_pos h2] at hb
      simp only [List.mem_cons, List.not_mem_nil, or_false] at hb
      rcases hb with rfl | rfl <;> omega
    · rw [if_neg h2] at hb
      by_cases h3 : c.toNat < 65536
      · rw [if_pos h3] at hb
        simp only [List.mem_cons, List.not_mem_nil, or_false] at hb
        rcases hb with rfl | rfl | rfl <;> omega
      · rw [if_neg h3] at hb
        simp only [List.mem_cons, List.not_mem_nil, or_false] at hb
        rcases hb with rfl | rfl | rfl | rfl <;> omega

theorem utf8EncodeL_lt (cs : List Char) : ∀ b ∈ utf8EncodeL cs, b < 256 := by
  intro b hb
  simp only [utf8EncodeL, List.mem_flatMap] at hb
  obtain ⟨c, _, hbc⟩ := hb
  exact utf8EncodeChar_lt c b hbc

theorem utf8Decode_encodeChar (c : Char) (l : List Nat) :
    utf8Decode? (utf8EncodeChar c ++ l) = (utf8Decode? l).map (fun cs => c :: cs) := by
  have hv := char_valid_range c
  by_cases h1 : c.toNat < 128
  · rw [show utf8EncodeChar c = [c.toNat] from by unfold utf8EncodeChar; rw [if_pos h1]]
    simp only [List.append_eq, List.cons_append, List.nil_append, utf8Decode?]
    rw [if_pos h1, Char.ofNat_toNat]
  · by_cases h2 : c.toNat < 2048
    · rw [show utf8EncodeChar c = [192 + c.toNat / 64, 128 + c.toNat % 64] from by
        unfold utf8EncodeChar; rw [if_neg h1, if_pos h2]]
      simp only [List.append_eq, List.cons_append, List.nil_append, utf8Decode?]
      rw [if_neg (by omega), if_neg (by omega), if_pos (by omega : 192 + c.toNat / 64 < 224)]
      simp only [utf8Dec2]
      rw [if_pos (show ContByte (128 + c.toNat % 64) from ⟨by omega, by omega⟩)]
      simp only [show (192 + c.toNat / 64 - 192) * 64 + (128 + c.toNat % 64 - 128) = c.toNat from
        by omega, Char.ofNat_toNat]
    · by_cases h3 : c.toNat < 65536
      · rw [show utf8EncodeChar c =
            [224 + c.toNat / 4096, 128 + c.toNat / 64 % 64, 128 + c.toNat % 64] from by
          unfold utf8EncodeChar; rw [if_neg h1, if_neg h2, if_pos h3]]
        simp only [List.append_eq, List.cons_append, List.nil_append, utf8Decode?]
        rw [if_neg (by omega), if_neg (by omega), if_neg (by omega),
          if_pos (by omega : 224 + c.toNat / 4096 < 240)]
        simp only [utf8Dec3]
        simp only [show (224 + c.toNat / 4096 - 224) * 4096 + (128 + c.toNat / 64 % 64 - 128) * 64 +
          (128 + c.toNat % 64 - 128) = c.toNat from by omega]
        rw [if_pos (show ContByte (128 + c.toNat / 64 % 64) ∧ ContByte (128 + c.toNat % 64) ∧
            2048 ≤ c.toNat ∧ ¬(55296 ≤ c.toNat ∧ c.toNat < 57344) from by
          refine ⟨⟨by omega, by omega⟩, ⟨by omega, by omega⟩, by omega, ?_⟩
          rcases hv with hv | hv <;> omega)]
        simp only [Char.ofNat_toNat]
      · rw [show utf8EncodeChar c = [240 + c.toNat / 262144, 128 + c.toNat / 4096 % 64,
            128 + c.toNat / 64 % 64, 128 + c.toNat % 64] from by
          unfold utf8EncodeChar; rw [if_neg h1, if_neg h2, if_neg h3]]
        simp only [List.append_eq, List.cons_append, List.nil_append, utf8Decode?]
        have hup : c.toNat < 1114112 := by rcases hv with hv | hv <;> omega
        rw [if_neg (by omega), if_neg (by omega), if_neg (by omega), if_neg (by omega),
          if_pos (by omega : 240 + c.toNat / 262144 < 245)]
        simp only [utf8Dec4]
        simp only [show (240 + c.toNat / 262144 - 240) * 262144 +
          (128 + c.toNat / 4096 % 64 - 128) * 4096 + (128 + c.toNat / 64 % 64 - 128) * 64 +
          (128 + c.toNat % 64 - 128) = c.toNat from by omega]
        rw [if_pos (show ContByte (128 + c.toNat / 4096 % 64) ∧
            ContByte (128 + c.toNat / 64 % 64) ∧ ContByte (128 + c.toNat % 64) ∧
            65536 ≤ c.toNat ∧ c.toNat < 1114112 from
          ⟨⟨by omega, by omega⟩, ⟨by omega, by omega⟩, ⟨by omega, by omega⟩, by omega, hup⟩)]
        simp only [Char.ofNat_toNat]

theorem utf8Decode_encodeL (cs : List Char) : utf8Decode? (utf8EncodeL cs) = some cs := by
  induction cs with
  | nil => rfl
  | cons c rest ih =>
      show utf8Decode? ((c :: rest).flatMap utf8EncodeChar) = _
      rw [List.flatMap_cons]
      rw [utf8Decode_encodeChar c (rest.flatMap utf8EncodeChar)]
      show (utf8Decode? (utf8EncodeL rest)).map _ = _
      rw [ih]
      rfl

theorem utf8Decode_encode (s : String) : utf8Decode? (utf8Encode s) = some s.data :=
  utf8Decode_encodeL s.data

/-! ### String and list helper lemmas -/

theorem str_mk_data (s : String) : String.mk s.data = s := rfl

theorem str_data_isEmpty_false (s : String) (h : ¬ s = "") : s.data.isEmpty = false := by
  cases s with
  | mk d =>
      cases d with
      | nil => exact absurd rfl h
      | cons c t => rfl

theorem truthyS_some (s : String) (h : ¬ s = "") : truthyS (some s) = true := by
  simp [truthyS, str_data_isEmpty_false s h]

theorem splitOnce_append (sep : Char) (u p : List Char) (h : sep ∉ u) :
    splitOnce? sep (u ++ sep :: p) = some (u, p) := by
  induction u with
  | nil => simp [splitOnce?]
  | cons c rest ih =>
      have hc : ¬ c = sep := by
        intro e
        exact h (by simp [e])
      have hrest : sep ∉ rest := fun hm => h (List.mem_cons_of_mem _ hm)
      simp [splitOnce?, hc, ih hrest]

theorem pyStartsWith_append (f n : String) : pyStartsWith (f ++ n) f = true := by
  unfold pyStartsWith
  rw [String.data_append, List.isPrefixOf_iff_prefix]
  exact List.prefix_append _ _

theorem pyEndsWith_append (q s : String) : pyEndsWith (q ++ s) s = true := by
  unfold pyEndsWith
  rw [String.data_append, List.isSuffixOf_iff_suffix]
  exact List.suffix_append _ _

theorem suffix_comparable {α : Type} {l1 l2 p : List α} (h1 : l1 <:+ p) (h2 : l2 <:+ p) :
    l1 <:+ l2 ∨ l2 <:+ l1 := by
  obtain ⟨t1, ht1⟩ := h1
  obtain ⟨t2, ht2⟩ := h2
  have heq : t1 ++ l1 = t2 ++ l2 := ht1.trans ht2.symm
  rcases List.append_eq_append_iff.mp heq with ⟨a, _, ha2⟩ | ⟨a, _, ha2⟩
  · exact Or.inr ⟨a, ha2.symm⟩
  · exact Or.inl ⟨a, ha2.symm⟩

/-- If a path ends with `s2`, it cannot also end with an `s1` that is
suffix-incomparable with `s2`; this is how the mutually exclusive routing
suffixes cut down the handler's branches. -/
theorem pyEndsWith_false_of (p s1 s2 : String) (h2 : pyEndsWith p s2 = true)
    (h : ¬ (s1.data <:+ s2.data ∨ s2.data <:+ s1.data)) : pyEndsWith p s1 = false := by
  cases hb : pyEndsWith p s1
  · rfl
  · exfalso
    apply h
    apply suffix_comparable
    · exact List.isSuffixOf_iff_suffix.mp (by unfold pyEndsWith at hb; exact hb)
    · exact List.isSuffixOf_iff_suffix.mp (by unfold pyEndsWith at h2; exact h2)

theorem s3get_s3put (st : Storage) (k : String) (v : Bytes) :
    s3get (s3put st k v) k = some v := by
  simp [s3get, s3put, List.lookup]

/-! ### Lemmas about authentication -/

theorem splitOnce_basic (w : List Char) :
    splitOnce? ' ' ("Basic ".data ++ w) = some ("Basic".data, w) := rfl

theorem basicCreds_encode (u p : String) (hu : ':' ∉ u.data) :
    basicCreds? ("Basic " ++ b64encode (utf8Encode (u ++ ":" ++ p))) = some (u, p) := by
  unfold basicCreds?
  rw [String.data_append, splitOnce_basic]
  dsimp only
  rw [str_mk_data]
  rw [pyB64decode_encode (utf8Encode (u ++ ":" ++ p)) (utf8EncodeL_lt _)]
  dsimp only
  rw [utf8Decode_encode]
  dsimp only
  have hdata : (u ++ ":" ++ p).data = u.data ++ ':' :: p.data := by
    rw [String.data_append, String.data_append]
    rw [show (":" : String).data = [':'] from rfl]
    rw [List.append_assoc, List.singleton_append]
  rw [hdata, splitOnce_append _ _ _ hu]

/-- Successful authentication for a well-formed Basic header with valid
credentials. -/
theorem authenticate_success (ev : Event) (users : Users) (u pw : String) (urec : UserRec)
    (hs : (ev.headers.getD []).lookup "Authorization" =
      some ("Basic " ++ b64encode (utf8Encode (u ++ ":" ++ pw))))
    (hu : ':' ∉ u.data) (hlk : users.lookup u = some urec) (hpw : urec.password = pw) :
    authenticate ev users = some (u, urec.root_folder) := by
  unfold authenticate
  dsimp only
  rw [hs]
  dsimp only
  have hne : ("Basic " ++ b64encode (utf8Encode (u ++ ":" ++ pw))).data.isEmpty = false := by
    rw [String.data_append]
    rfl
  have hpre : pyStartsWith ("Basic " ++ b64encode (utf8Encode (u ++ ":" ++ pw))) "Basic " = true :=
    pyStartsWith_append _ _
  rw [hne, hpre]
  simp only [Bool.not_true, Bool.or_false, if_false, Bool.false_eq_true, ite_false]
  rw [basicCreds_encode u pw hu]
  dsimp only
  rw [hlk]
  dsimp only
  rw [hpw]
  simp

/-! ### Handler branch lemmas -/

theorem handler_unauth (ev : Event) (users : Users) (st : Storage)
    (hm : (ev.httpMethod == "OPTIONS") = false)
    (hauth : authenticate ev users = none) :
    lambda_handler ev users st =
      (response 401 (PyBody.str (jsonErrorObj "Unauthorized")) false (some "application/json"),
        st, []) := by
  unfold lambda_handler
  dsimp only
  rw [hm, hauth]
  simp only [Bool.false_eq_true, if_false]

theorem handler_put (ev : Event) (users : Users) (st : Storage) (user folder name : String)
    (decoded : Bytes)
    (hme : ev.httpMethod = "PUT")
    (hauth : authenticate ev users = some (user, folder)) (huser : ¬ user = "")
    (hput : pyEndsWith ev.path "/put" = true)
    (hfn : (ev.queryStringParameters.getD []).lookup "filename" = some name)
    (hname : ¬ name = "")
    (hbody : pyB64decode? (ev.body.getD "") = some decoded) :
    lambda_handler ev users st =
      (response 200
          (PyBody.str (if pyEndsWith name "/" then "Folder \"" ++ name ++ "\" created"
            else "File \"" ++ name ++ "\" uploaded")) false none,
        s3put st (normalize_key folder name)
          (if pyEndsWith name "/" && decoded.isEmpty then [32] else decoded),
        [S3Call.putObject (normalize_key folder name)
          (if pyEndsWith name "/" && decoded.isEmpty then [32] else decoded)]) := by
  unfold lambda_handler
  dsimp only
  rw [hme, hauth]
  dsimp only
  rw [str_data_isEmpty_false user huser]
  rw [hput, hfn, truthyS_some name hname]
  simp only [show (("PUT" : String) == "OPTIONS") = false from by decide,
    show (("PUT" : String) == "PUT") = true from by decide,
    Bool.false_eq_true, Bool.and_true, if_false, if_true]
  rw [hbody]
  dsimp only [Option.getD_some]

theorem handler_put_missing (ev : Event) (users : Users) (st : Storage) (user folder : String)
    (hme : ev.httpMethod = "PUT")
    (hauth : authenticate ev users = some (user, folder)) (huser : ¬ user = "")
    (hput : pyEndsWith ev.path "/put" = true)
    (hfn : truthyS ((ev.queryStringParameters.getD []).lookup "filename") = false) :
    lambda_handler ev users st =
      (response 400 (PyBody.str (jsonErrorObj "Missing filename")) false (some "application/json"),
        st, []) := by
  unfold lambda_handler
  dsimp only
  rw [hme, hauth]
  dsimp only
  rw [str_data_isEmpty_false user huser]
  rw [hput, hfn]
  simp only [show (("PUT" : String) == "OPTIONS") = false from by decide,
    show (("PUT" : String) == "PUT") = true from by decide,
    Bool.false_eq_true, Bool.and_true, if_false, if_true]

theorem handler_get_found (ev : Event) (users : Users) (st : Storage) (user folder name : String)
    (bs : Bytes)
    (hme : ev.httpMethod = "GET")
    (hauth : authenticate ev users = some (user, folder)) (huser : ¬ user = "")
    (hget : pyEndsWith ev.path "/get" = true)
    (hfn : (ev.queryStringParameters.getD []).lookup "filename" = some name)
    (hname : ¬ name = "")
    (hobj : s3get st (normalize_key folder name) = some bs) :
    lambda_handler ev users st =
      (response 200 (PyBody.bytes bs) true (some "application/octet-stream"), st,
        [S3Call.getObject (normalize_key folder name)]) := by
  unfold lambda_handler
  dsimp only
  rw [hme, hauth]
  dsimp only
  rw [str_data_isEmpty_false user huser]
  rw [hget, hfn, truthyS_some name hname]
  simp only [show (("GET" : String) == "OPTIONS") = false from by decide,
    show (("GET" : String) == "PUT") = false from by decide,
    show (("GET" : String) == "GET") = true from by decide,
    Bool.and_false, Bool.and_true, Bool.false_eq_true, if_false, if_true,
    Option.getD_some]
  rw [hobj]

theorem handler_list_files (ev : Event) (users : Users) (st : Storage) (user folder : String)
    (hme : ev.httpMethod = "GET")
    (hauth : authenticate ev users = some (user, folder)) (huser : ¬ user = "")
    (hlf : pyEndsWith ev.path "/list-files" = true) :
    lambda_handler ev users st =
      (response 200
          (PyBody.str (jsonArray (listFilesFilter folder
            ((ev.queryStringParameters.getD []).lookup "prefix")
            (s3listKeys st (normalize_key folder
              (((ev.queryStringParameters.getD []).lookup "prefix").getD ""))))))
          false (some "application/json"),
        st,
        [S3Call.listObjectsV2 (normalize_key folder
          (((ev.queryStringParameters.getD []).lookup "prefix").getD "")) none]) := by
  have hg : pyEndsWith ev.path "/get" = false :=
    pyEndsWith_false_of _ "/get" "/list-files" hlf (by decide)
  have hl : pyEndsWith ev.path "/list" = false :=
    pyEndsWith_false_of _ "/list" "/list-files" hlf (by decide)
  unfold lambda_handler
  dsimp only
  rw [hme, hauth]
  dsimp only
  rw [str_data_isEmpty_false user huser]
  rw [hg, hl, hlf]
  simp only [show (("GET" : String) == "OPTIONS") = false from by decide,
    show (("GET" : String) == "PUT") = false from by decide,
    show (("GET" : String) == "GET") = true from by decide,
    Bool.and_false, Bool.and_true, Bool.false_and, Bool.false_eq_true, if_false, if_true]

theorem handler_delete_folder_empty (ev : Event) (users : Users) (st : Storage)
    (user folder pfx : String)
    (hme : ev.httpMethod = "DELETE")
    (hauth : authenticate ev users = some (user, folder)) (huser : ¬ user = "")
    (hdf : pyEndsWith ev.path "/delete-folder" = true)
    (hp : (ev.queryStringParameters.getD []).lookup "prefix" = some pfx)
    (hpne : ¬ pfx = "")
    (hkeys : s3listKeys st (normalize_key folder pfx) = []) :
    lambda_handler ev users st =
      (response 200 (PyBody.str ("Folder \"" ++ pfx ++ "\" deleted")) false none, st,
        [S3Call.listObjectsV2 (normalize_key folder pfx) none]) := by
  have hd : pyEndsWith ev.path "/delete" = false :=
    pyEndsWith_false_of _ "/delete" "/delete-folder" hdf (by decide)
  unfold lambda_handler
  dsimp only
  rw [hme, hauth]
  dsimp only
  rw [str_data_isEmpty_false user huser]
  rw [hd, hdf, hp, truthyS_some pfx hpne]
  simp only [show (("DELETE" : String) == "OPTIONS") = false from by decide,
    show (("DELETE" : String) == "PUT") = false from by decide,
    show (("DELETE" : String) == "GET") = false from by decide,
    show (("DELETE" : String) == "DELETE") = true from by decide,
    Bool.and_false, Bool.and_true, Bool.false_and, Bool.false_eq_true, if_false, if_true,
    Option.getD_some]
  rw [hkeys]
  dsimp only [List.isEmpty]
  rfl

theorem handler_no_route (ev : Event) (users : Users) (st : Storage) (user folder : String)
    (hmo : (ev.httpMethod == "OPTIONS") = false)
    (hauth : authenticate ev users = some (user, folder)) (huser : ¬ user = "")
    (hc1 : (pyEndsWith ev.path "/put" && (ev.httpMethod == "PUT")) = false)
    (hc2 : (pyEndsWith ev.path "/get" && (ev.httpMethod == "GET") &&
      truthyS (List.lookup "filename" (ev.queryStringParameters.getD []))) = false)
    (hc3 : (pyEndsWith ev.path "/list" && (ev.httpMethod == "GET")) = false)
    (hc4 : (pyEndsWith ev.path "/list-files" && (ev.httpMethod == "GET")) = false)
    (hc5 : (pyEndsWith ev.path "/download-folder" && (ev.httpMethod == "GET") &&
      truthyS (List.lookup "prefix" (ev.queryStringParameters.getD []))) = false)
    (hc6 : (pyEndsWith ev.path "/delete" && (ev.httpMethod == "DELETE") &&
      truthyS (List.lookup "filename" (ev.queryStringParameters.getD []))) = false)
    (hc7 : (pyEndsWith ev.path "/delete-folder" && (ev.httpMethod == "DELETE") &&
      truthyS (List.lookup "prefix" (ev.queryStringParameters.getD []))) = false) :
    lambda_handler ev users st =
      (response 405 (PyBody.str (jsonErrorObj "Unsupported operation")) false
        (some "application/json"), st, []) := by
  unfold lambda_handler
  dsimp only
  rw [hmo, hauth]
  dsimp only
  rw [str_data_isEmpty_false user huser]
  rw [hc1, hc2, hc3, hc4, hc5, hc6, hc7]
  simp only [Bool.false_eq_true, if_false]

theorem authenticate_path_indep (ev : Event) (p2 : String) (users : Users) :
    authenticate { ev with path := p2 } users = authenticate ev users := rfl

theorem handler_path_profile (ev : Event) (p2 : String) (users : Users) (st : Storage)
    (h : ∀ s ∈ ["/put", "/get", "/list", "/list-files", "/download-folder", "/delete",
      "/delete-folder"], pyEndsWith ev.path s = pyEndsWith p2 s) :
    lambda_handler { ev with path := p2 } users st = lambda_handler ev users st := by
  have h1 := h "/put" (by simp)
  have h2 := h "/get" (by simp)
  have h3 := h "/list" (by simp)
  have h4 := h "/list-files" (by simp)
  have h5 := h "/download-folder" (by simp)
  have h6 := h "/delete" (by simp)
  have h7 := h "/delete-folder" (by simp)
  unfold lambda_handler
  dsimp only
  rw [authenticate_path_indep]
  rw [← h1, ← h2, ← h3, ← h4, ← h5, ← h6, ← h7]

/-! ### Characterization of the list-files filter -/

theorem filterMap_eq_filter_map {A B : Type} (f : A → Option B) (g : A → B) (p : B → Bool)
    (hf : ∀ a, f a = if p (g a) then some (g a) else none) (l : List A) :
    l.filterMap f = (l.map g).filter p := by
  induction l with
  | nil => rfl
  | cons a t ih =>
      rw [List.filterMap_cons, List.map_cons, List.filter_cons, hf a]
      cases h : p (g a)
      · simp only [Bool.false_eq_true, if_false, ih]
      · simp only [if_true, ih]

theorem listFilesFilter_none (folder : String) (keys : List String) :
    listFilesFilter folder none keys =
      (keys.map (fun k => pyReplaceFirst k folder "")).filter (fun k => !k.data.contains '/') := by
  unfold listFilesFilter
  exact filterMap_eq_filter_map _ (fun k => pyReplaceFirst k folder "")
    (fun k => !k.data.contains '/') (fun k => rfl) keys

theorem listFilesFilter_some (folder p : String) (hp : ¬ p = "") (keys : List String) :
    listFilesFilter folder (some p) keys =
      (keys.map (fun k => pyDrop (pyReplaceFirst k folder "") p.length)).filter
        (fun sp => !sp.data.isEmpty && !sp.data.contains '/') := by
  unfold listFilesFilter
  refine filterMap_eq_filter_map _ (fun k => pyDrop (pyReplaceFirst k folder "") p.length)
    (fun sp => !sp.data.isEmpty && !sp.data.contains '/') (fun k => ?_) keys
  dsimp only
  simp only [truthyS, Option.getD_some]
  rw [str_data_isEmpty_false p hp]
  rfl

theorem and3_false (a b c : Bool) (h : (a && b) = false) : (a && b && c) = false := by
  cases a <;> cases b <;> simp_all

/-! ### Claim theorems -/

/-- C6: for every folder string and every name string, `normalize_key` is
idempotent: `normalize_key folder (normalize_key folder name) =
normalize_key folder name`, where `normalize_key folder name` is `name` if
`name` starts with `folder` and `folder ++ name` otherwise. -/
theorem c6_normalize_key_idempotent (folder name : String) :
    normalize_key folder (normalize_key folder name) = normalize_key folder name := by
  by_cases h : pyStartsWith name folder = true
  · simp [normalize_key, h]
  · simp [normalize_key, h, pyStartsWith_append]

/-- C8: for every request envelope whose method is not OPTIONS and on which
authentication fails, regardless of path, the handler returns status 401
with body `{"error": "Unauthorized"}` (written with escaped braces), leaves
the storage unchanged and performs no storage operation (empty S3 trace). -/
theorem c8_unauthorized (ev : Event) (users : Users) (st : Storage)
    (hm : (ev.httpMethod == "OPTIONS") = false)
    (hauth : authenticate ev users = none) :
    lambda_handler ev users st =
      (⟨401, some "application/json", "\x7b\"error\": \"Unauthorized\"\x7d", false⟩, st, []) := by
  rw [handler_unauth ev users st hm hauth]
  rfl

/-- C8 witness: a concrete request with no Authorization header to an
arbitrary path gets the 401 response with unchanged storage and no S3 call. -/
theorem c8_witness :
    lambda_handler ⟨"GET", "/whatever/get", some [("filename", "a")], none, none⟩ [] [("k", [1])] =
      (⟨401, some "application/json", "\x7b\"error\": \"Unauthorized\"\x7d", false⟩,
        [("k", [1])], []) :=
  c8_unauthorized ⟨"GET", "/whatever/get", some [("filename", "a")], none, none⟩ [] [("k", [1])]
    (by decide) (by decide)

/-- C9 counterexample: with an empty user directory in the secret store, the
first authentication attempt fetches and completes, yet the second attempt
fetches again (third component `true`), because `if _cached_users:` is false
for the cached empty dictionary — refuting "never refreshed afterwards,
whatever the content of the fetched user directory". -/
theorem c9_counterexample :
    (get_users none []).2.2 = true ∧
    (get_users (get_users none []).2.1 []).2.2 = true := by decide

/-- C9 amended: the process-wide cache is populated by the first fetch and
never refreshed afterwards provided the fetched user directory is truthy
(non-empty); a falsy (empty) fetched directory leaves the cache check false
and every subsequent attempt fetches again. -/
theorem c9_cache_amended (store store2 : Users) (h : ¬ store = []) :
    get_users none store = (store, some store, true) ∧
    get_users (get_users none store).2.1 store2 = (store, some store, false) := by
  have ht : usersTruthy (some store) = true := by
    cases store with
    | nil => exact absurd rfl h
    | cons a t => rfl
  constructor
  · rfl
  · show get_users (some store) store2 = _
    unfold get_users
    rw [ht]
    rfl

/-- C9 witness: a concrete non-empty user directory is fetched once and the
second attempt is served from the cache with no secret-store call. -/
theorem c9_witness :
    get_users none [("alice", ⟨"pw", "alice/"⟩)] =
      ([("alice", ⟨"pw", "alice/"⟩)], some [("alice", ⟨"pw", "alice/"⟩)], true) ∧
    get_users (get_users none [("alice", ⟨"pw", "alice/"⟩)]).2.1 [("bob", ⟨"x", "y/"⟩)] =
      ([("alice", ⟨"pw", "alice/"⟩)], some [("alice", ⟨"pw", "alice/"⟩)], false) :=
  c9_cache_amended [("alice", ⟨"pw", "alice/"⟩)] [("bob", ⟨"x", "y/"⟩)] (by decide)

/-- C7: an authenticated DELETE to a path ending in `/delete-folder` with a
truthy prefix whose normalized listing is empty returns 200 with message
`Folder "<prefix>" deleted`, leaves the storage unchanged, and issues only
the list call — no storage delete call appears in the trace. -/
theorem c7_delete_folder_noop (ev : Event) (users : Users) (st : Storage)
    (user folder pfx : String)
    (hme : ev.httpMethod = "DELETE")
    (hauth : authenticate ev users = some (user, folder)) (huser : ¬ user = "")
    (hdf : pyEndsWith ev.path "/delete-folder" = true)
    (hp : (ev.queryStringParameters.getD []).lookup "prefix" = some pfx)
    (hpne : ¬ pfx = "")
    (hkeys : s3listKeys st (normalize_key folder pfx) = []) :
    lambda_handler ev users st =
      (response 200 (PyBody.str ("Folder \"" ++ pfx ++ "\" deleted")) false none, st,
        [S3Call.listObjectsV2 (normalize_key folder pfx) none]) :=
  handler_delete_folder_empty ev users st user folder pfx hme hauth huser hdf hp hpne hkeys

/-- C7 witness: the spec's scenario with `prefix=sub/` and no matching
objects, returning 200 and issuing no delete call. -/
theorem c7_witness :
    lambda_handler
        ⟨"DELETE", "/delete-folder", some [("prefix", "sub/")],
          some [("Authorization", "Basic YWxpY2U6cHc=")], none⟩
        [("alice", ⟨"pw", "alice/"⟩)] [("alice/other.txt", [104])] =
      (response 200 (PyBody.str ("Folder \"" ++ "sub/" ++ "\" deleted")) false none,
        [("alice/other.txt", [104])],
        [S3Call.listObjectsV2 (normalize_key "alice/" "sub/") none]) :=
  c7_delete_folder_noop
    ⟨"DELETE", "/delete-folder", some [("prefix", "sub/")],
      some [("Authorization", "Basic YWxpY2U6cHc=")], none⟩
    [("alice", ⟨"pw", "alice/"⟩)] [("alice/other.txt", [104])] "alice" "alice/" "sub/"
    rfl (by decide) (by decide) (by decide) (by decide) (by decide) (by decide)

/-- C10: an authenticated PUT to a path ending in `/put` whose filename is
truthy and does not end with `/`, with an empty or absent body, stores a
zero-length object at the normalized key and returns 200 with message
`File "<filename>" uploaded` — the single-space placeholder is not applied. -/
theorem c10_put_empty_body (ev : Event) (users : Users) (st : Storage)
    (user folder name : String)
    (hme : ev.httpMethod = "PUT")
    (hauth : authenticate ev users = some (user, folder)) (huser : ¬ user = "")
    (hput : pyEndsWith ev.path "/put" = true)
    (hfn : (ev.queryStringParameters.getD []).lookup "filename" = some name)
    (hname : ¬ name = "")
    (hnoslash : pyEndsWith name "/" = false)
    (hbody : ev.body = none ∨ ev.body = some "") :
    lambda_handler ev users st =
      (response 200 (PyBody.str ("File \"" ++ name ++ "\" uploaded")) false none,
        s3put st (normalize_key folder name) [],
        [S3Call.putObject (normalize_key folder name) []]) := by
  have hdec : pyB64decode? (ev.body.getD "") = some [] := by
    rcases hbody with h | h <;> rw [h] <;> rfl
  rw [handler_put ev users st user folder name [] hme hauth huser hput hfn hname hdec]
  rw [hnoslash]
  rfl

/-- C10 witness: a concrete authenticated PUT of `notes.txt` with absent
body stores the empty object and reports the upload message. -/
theorem c10_witness :
    lambda_handler
        ⟨"PUT", "/put", some [("filename", "notes.txt")],
          some [("Authorization", "Basic YWxpY2U6cHc=")], none⟩
        [("alice", ⟨"pw", "alice/"⟩)] [] =
      (response 200 (PyBody.str ("File \"" ++ "notes.txt" ++ "\" uploaded")) false none,
        s3put [] (normalize_key "alice/" "notes.txt") [],
        [S3Call.putObject (normalize_key "alice/" "notes.txt") []]) :=
  c10_put_empty_body
    ⟨"PUT", "/put", some [("filename", "notes.txt")],
      some [("Authorization", "Basic YWxpY2U6cHc=")], none⟩
    [("alice", ⟨"pw", "alice/"⟩)] [] "alice" "alice/" "notes.txt"
    rfl (by decide) (by decide) (by decide) (by decide) (by decide) (by decide) (Or.inl rfl)

/-- C2: `authenticate` succeeds exactly on a Basic header carrying valid
credentials.  First conjunct: when the Authorization header is `Basic `
followed by the base64 of the UTF-8 bytes of `u:p`, `u` contains no colon,
`u` is in the user directory and `p` is exactly its stored password, the
result is `(u, that user's root_folder)`.  Second conjunct: any successful
result arises only that way — the header is present, `Basic `-prefixed, and
its credential pipeline yields the user's name and exact stored password;
every other envelope yields the single unauthenticated result `none`, with
no distinction between failure causes. -/
theorem c2_authenticate_correct :
    (∀ (ev : Event) (users : Users) (u pw : String) (urec : UserRec),
      (ev.headers.getD []).lookup "Authorization" =
        some ("Basic " ++ b64encode (utf8Encode (u ++ ":" ++ pw))) →
      ':' ∉ u.data → users.lookup u = some urec → urec.password = pw →
      authenticate ev users = some (u, urec.root_folder)) ∧
    (∀ (ev : Event) (users : Users) (u f : String),
      authenticate ev users = some (u, f) →
      ∃ (auth : String) (urec : UserRec),
        (ev.headers.getD []).lookup "Authorization" = some auth ∧
        pyStartsWith auth "Basic " = true ∧
        basicCreds? auth = some (u, urec.password) ∧
        users.lookup u = some urec ∧ f = urec.root_folder) := by
  constructor
  · intro ev users u pw urec hs hu hlk hpw
    exact authenticate_success ev users u pw urec hs hu hlk hpw
  · intro ev users u f hauth
    unfold authenticate at hauth
    dsimp only at hauth
    cases hh : List.lookup "Authorization" (ev.headers.getD []) with
    | none => rw [hh] at hauth; exact absurd hauth (by simp)
    | some auth =>
        rw [hh] at hauth
        dsimp only at hauth
        by_cases hcond : (auth.data.isEmpty || !pyStartsWith auth "Basic ") = true
        · rw [if_pos hcond] at hauth
          exact absurd hauth (by simp)
        · rw [if_neg hcond] at hauth
          have hpre : pyStartsWith auth "Basic " = true := by
            cases hb : pyStartsWith auth "Basic "
            · exfalso
              apply hcond
              rw [hb]
              simp
            · rfl
          cases hbc : basicCreds? auth with
          | none => rw [hbc] at hauth; exact absurd hauth (by simp)
          | some cred =>
              obtain ⟨un, pw⟩ := cred
              rw [hbc] at hauth
              dsimp only at hauth
              cases hlk : List.lookup un users with
              | none => rw [hlk] at hauth; exact absurd hauth (by simp)
              | some urec =>
                  rw [hlk] at hauth
                  dsimp only at hauth
                  by_cases hpw : (urec.password == pw) = true
                  · rw [if_pos hpw] at hauth
                    have hpair := Option.some.inj hauth
                    have hu : un = u := congrArg Prod.fst hpair
                    have hf : urec.root_folder = f := congrArg Prod.snd hpair
                    refine ⟨auth, urec, rfl, hpre, ?_, ?_, hf.symm⟩
                    · rw [hbc]
                      have hpweq : urec.password = pw := beq_iff_eq.mp hpw
                      rw [hpweq, hu]
                    · rw [← hu]
                      exact hlk
                  · rw [if_neg hpw] at hauth
                    exact absurd hauth (by simp)

/-- C2 witness: the valid concrete credential `alice:pw` authenticates to
root folder `alice/`, and that success decomposes as the second conjunct
describes. -/
theorem c2_witness :
    authenticate ⟨"GET", "/x", none, some [("Authorization", "Basic YWxpY2U6cHc=")], none⟩
        [("alice", ⟨"pw", "alice/"⟩)] = some ("alice", "alice/") ∧
    ∃ (auth : String) (urec : UserRec),
      ((⟨"GET", "/x", none, some [("Authorization", "Basic YWxpY2U6cHc=")], none⟩ :
        Event).headers.getD []).lookup "Authorization" = some auth ∧
      pyStartsWith auth "Basic " = true ∧
      basicCreds? auth = some ("alice", urec.password) ∧
      ([("alice", ⟨"pw", "alice/"⟩)] : Users).lookup "alice" = some urec ∧
      "alice/" = urec.root_folder :=
  have h1 : authenticate ⟨"GET", "/x", none, some [("Authorization", "Basic YWxpY2U6cHc=")], none⟩
      [("alice", ⟨"pw", "alice/"⟩)] = some ("alice", "alice/") :=
    c2_authenticate_correct.1
      ⟨"GET", "/x", none, some [("Authorization", "Basic YWxpY2U6cHc=")], none⟩
      [("alice", ⟨"pw", "alice/"⟩)] "alice" "pw" ⟨"pw", "alice/"⟩
      (by decide) (by decide) (by decide) rfl
  ⟨h1, c2_authenticate_correct.2
    ⟨"GET", "/x", none, some [("Authorization", "Basic YWxpY2U6cHc=")], none⟩
    [("alice", ⟨"pw", "alice/"⟩)] "alice" "alice/" h1⟩

/-- C3: for every authenticated GET to a path ending in `/list-files`, over
whatever keys the storage lists under `normalize_key folder (prefix-or-empty)`:
with no prefix parameter the response is 200 whose JSON body holds exactly
the listed keys with `folder` stripped that contain no `/`; with a truthy
prefix parameter it holds exactly the non-empty slash-free remainders after
dropping `len(prefix)` characters from each folder-stripped key.  The
storage is unchanged and exactly one list call is issued. -/
theorem c3_list_files (ev : Event) (users : Users) (st : Storage) (user folder : String)
    (hme : ev.httpMethod = "GET")
    (hauth : authenticate ev users = some (user, folder)) (huser : ¬ user = "")
    (hlf : pyEndsWith ev.path "/list-files" = true) :
    ((ev.queryStringParameters.getD []).lookup "prefix" = none →
      lambda_handler ev users st =
        (response 200 (PyBody.str (jsonArray
            (((s3listKeys st (normalize_key folder "")).map
                (fun k => pyReplaceFirst k folder "")).filter
              (fun k => !k.data.contains '/'))))
          false (some "application/json"), st,
          [S3Call.listObjectsV2 (normalize_key folder "") none])) ∧
    (∀ p : String, (ev.queryStringParameters.getD []).lookup "prefix" = some p → ¬ p = "" →
      lambda_handler ev users st =
        (response 200 (PyBody.str (jsonArray
            (((s3listKeys st (normalize_key folder p)).map
                (fun k => pyDrop (pyReplaceFirst k folder "") p.length)).filter
              (fun sp => !sp.data.isEmpty && !sp.data.contains '/'))))
          false (some "application/json"), st,
          [S3Call.listObjectsV2 (normalize_key folder p) none])) := by
  constructor
  · intro hnone
    rw [handler_list_files ev users st user folder hme hauth huser hlf]
    rw [hnone]
    rw [show (none : Option String).getD "" = "" from rfl]
    rw [listFilesFilter_none]
  · intro p hp hpne
    rw [handler_list_files ev users st user folder hme hauth huser hlf]
    rw [hp]
    rw [show (some p).getD "" = p from rfl]
    rw [listFilesFilter_some folder p hpne]

/-- C3 witness: a concrete listing with keys `alice/a.txt`, `alice/sub/b.txt`
and the folder marker `alice/`, without a prefix parameter, returns exactly
the top-level names. -/
theorem c3_witness :
    lambda_handler
        ⟨"GET", "/list-files", none, some [("Authorization", "Basic YWxpY2U6cHc=")], none⟩
        [("alice", ⟨"pw", "alice/"⟩)]
        [("alice/a.txt", [1]), ("alice/sub/b.txt", [2]), ("alice/", [32])] =
      (response 200 (PyBody.str (jsonArray
          (((s3listKeys [("alice/a.txt", [1]), ("alice/sub/b.txt", [2]), ("alice/", [32])]
              (normalize_key "alice/" "")).map
              (fun k => pyReplaceFirst k "alice/" "")).filter
            (fun k => !k.data.contains '/'))))
        false (some "application/json"),
        [("alice/a.txt", [1]), ("alice/sub/b.txt", [2]), ("alice/", [32])],
        [S3Call.listObjectsV2 (normalize_key "alice/" "") none]) :=
  (c3_list_files
    ⟨"GET", "/list-files", none, some [("Authorization", "Basic YWxpY2U6cHc=")], none⟩
    [("alice", ⟨"pw", "alice/"⟩)]
    [("alice/a.txt", [1]), ("alice/sub/b.txt", [2]), ("alice/", [32])] "alice" "alice/"
    rfl (by decide) (by decide) (by decide)).1 rfl

theorem and_right_false (a b c : Bool) (h : c = false) : (a && b && c) = false := by
  cases a <;> cases b <;> simp_all

/-- C5: routing depends only on the method and the path-suffix profile.
First conjunct: two authenticated requests differing only in path but
agreeing on which of the seven routing suffixes the path ends with are
handled identically.  Second conjunct: a PUT whose path is any prefix
followed by `/put` (with filename present and decodable body) dispatches to
the Put operation — a 200 with exactly one `putObject` call.  Third
conjunct: whenever none of the seven (suffix, method) pairs matches and the
method is not OPTIONS, the authenticated request gets the terminal 405
response with no storage call. -/
theorem c5_dispatch :
    (∀ (ev : Event) (p2 : String) (users : Users) (st : Storage),
      (∀ s ∈ ["/put", "/get", "/list", "/list-files", "/download-folder", "/delete",
        "/delete-folder"], pyEndsWith ev.path s = pyEndsWith p2 s) →
      lambda_handler { ev with path := p2 } users st = lambda_handler ev users st) ∧
    (∀ (q : String) (ev : Event) (users : Users) (st : Storage)
      (user folder name : String) (decoded : Bytes),
      ev.path = q ++ "/put" → ev.httpMethod = "PUT" →
      authenticate ev users = some (user, folder) → ¬ user = "" →
      (ev.queryStringParameters.getD []).lookup "filename" = some name → ¬ name = "" →
      pyB64decode? (ev.body.getD "") = some decoded →
      (lambda_handler ev users st).1.statusCode = 200 ∧
      (lambda_handler ev users st).2.2 = [S3Call.putObject (normalize_key folder name)
        (if pyEndsWith name "/" && decoded.isEmpty then [32] else decoded)]) ∧
    (∀ (ev : Event) (users : Users) (st : Storage) (user folder : String),
      (ev.httpMethod == "OPTIONS") = false →
      authenticate ev users = some (user, folder) → ¬ user = "" →
      (pyEndsWith ev.path "/put" && (ev.httpMethod == "PUT")) = false →
      (pyEndsWith ev.path "/get" && (ev.httpMethod == "GET")) = false →
      (pyEndsWith ev.path "/list" && (ev.httpMethod == "GET")) = false →
      (pyEndsWith ev.path "/list-files" && (ev.httpMethod == "GET")) = false →
      (pyEndsWith ev.path "/download-folder" && (ev.httpMethod == "GET")) = false →
      (pyEndsWith ev.path "/delete" && (ev.httpMethod == "DELETE")) = false →
      (pyEndsWith ev.path "/delete-folder" && (ev.httpMethod == "DELETE")) = false →
      lambda_handler ev users st =
        (response 405 (PyBody.str (jsonErrorObj "Unsupported operation")) false
          (some "application/json"), st, [])) := by
  refine ⟨?_, ?_, ?_⟩
  · intro ev p2 users st h
    exact handler_path_profile ev p2 users st h
  · intro q ev users st user folder name decoded hpath hme hauth huser hfn hname hdec
    have hput : pyEndsWith ev.path "/put" = true := by
      rw [hpath]
      exact pyEndsWith_append q "/put"
    rw [handler_put ev users st user folder name decoded hme hauth huser hput hfn hname hdec]
    exact ⟨rfl, rfl⟩
  · intro ev users st user folder hmo hauth huser hc1 hc2 hc3 hc4 hc5 hc6 hc7
    exact handler_no_route ev users st user folder hmo hauth huser hc1
      (and3_false _ _ _ hc2) hc3 hc4 (and3_false _ _ _ hc5) (and3_false _ _ _ hc6)
      (and3_false _ _ _ hc7)

/-- C5 witness: (a) the same request routed under paths `/api/v1/put` and
`/x/put` (equal suffix profiles) is handled identically; (b) a PUT to
`/files/put` dispatches to the Put operation; (c) a PATCH to `/nope`
matches nothing and yields the 405 response. -/
theorem c5_witness :
    lambda_handler
        { (⟨"PUT", "/api/v1/put", some [("filename", "f.txt")],
            some [("Authorization", "Basic YWxpY2U6cHc=")], none⟩ : Event) with path := "/x/put" }
        [("alice", ⟨"pw", "alice/"⟩)] [] =
      lambda_handler
        ⟨"PUT", "/api/v1/put", some [("filename", "f.txt")],
          some [("Authorization", "Basic YWxpY2U6cHc=")], none⟩
        [("alice", ⟨"pw", "alice/"⟩)] [] ∧
    ((lambda_handler
        ⟨"PUT", "/files/put", some [("filename", "f.txt")],
          some [("Authorization", "Basic YWxpY2U6cHc=")], none⟩
        [("alice", ⟨"pw", "alice/"⟩)] []).1.statusCode = 200 ∧
      (lambda_handler
        ⟨"PUT", "/files/put", some [("filename", "f.txt")],
          some [("Authorization", "Basic YWxpY2U6cHc=")], none⟩
        [("alice", ⟨"pw", "alice/"⟩)] []).2.2 =
        [S3Call.putObject (normalize_key "alice/" "f.txt")
          (if pyEndsWith "f.txt" "/" && List.isEmpty ([] : Bytes) then [32] else ([] : Bytes))]) ∧
    lambda_handler
        ⟨"PATCH", "/nope", none, some [("Authorization", "Basic YWxpY2U6cHc=")], none⟩
        [("alice", ⟨"pw", "alice/"⟩)] [] =
      (response 405 (PyBody.str (jsonErrorObj "Unsupported operation")) false
        (some "application/json"), [], []) :=
  ⟨c5_dispatch.1
      ⟨"PUT", "/api/v1/put", some [("filename", "f.txt")],
        some [("Authorization", "Basic YWxpY2U6cHc=")], none⟩ "/x/put"
      [("alice", ⟨"pw", "alice/"⟩)] [] (by decide),
    c5_dispatch.2.1 "/files"
      ⟨"PUT", "/files/put", some [("filename", "f.txt")],
        some [("Authorization", "Basic YWxpY2U6cHc=")], none⟩
      [("alice", ⟨"pw", "alice/"⟩)] [] "alice" "alice/" "f.txt" []
      rfl rfl (by decide) (by decide) (by decide) (by decide) (by decide),
    c5_dispatch.2.2
      ⟨"PATCH", "/nope", none, some [("Authorization", "Basic YWxpY2U6cHc=")], none⟩
      [("alice", ⟨"pw", "alice/"⟩)] [] "alice" "alice/"
      (by decide) (by decide) (by decide) (by decide) (by decide) (by decide) (by decide)
      (by decide) (by decide) (by decide)⟩

/-- C4 counterexample: an authenticated GET to `/get` with no query
parameters — an operation whose required `filename` is omitted — returns
status 405, not the claimed 400: the branch guard fails and the request
falls through to the unsupported-operation response. -/
theorem c4_counterexample :
    (lambda_handler ⟨"GET", "/get", none, some [("Authorization", "Basic YWxpY2U6cHc=")], none⟩
      [("alice", ⟨"pw", "alice/"⟩)] []).1.statusCode = 405 := by decide

/-- C4 amended: only the `/put` operation maps a missing required query
parameter to 400; for `/get` and `/delete` without a truthy `filename`, and
for `/download-folder` and `/delete-folder` without a truthy `prefix`, the
branch guard fails and the handler returns 405. -/
theorem c4_missing_param_amended :
    (∀ (ev : Event) (users : Users) (st : Storage) (user folder : String),
      ev.httpMethod = "PUT" → authenticate ev users = some (user, folder) → ¬ user = "" →
      pyEndsWith ev.path "/put" = true →
      truthyS ((ev.queryStringParameters.getD []).lookup "filename") = false →
      (lambda_handler ev users st).1.statusCode = 400) ∧
    (∀ (ev : Event) (users : Users) (st : Storage) (user folder : String),
      ev.httpMethod = "GET" → authenticate ev users = some (user, folder) → ¬ user = "" →
      pyEndsWith ev.path "/get" = true →
      truthyS ((ev.queryStringParameters.getD []).lookup "filename") = false →
      (lambda_handler ev users st).1.statusCode = 405) ∧
    (∀ (ev : Event) (users : Users) (st : Storage) (user folder : String),
      ev.httpMethod = "DELETE" → authenticate ev users = some (user, folder) → ¬ user = "" →
      pyEndsWith ev.path "/delete" = true →
      truthyS ((ev.queryStringParameters.getD []).lookup "filename") = false →
      (lambda_handler ev users st).1.statusCode = 405) ∧
    (∀ (ev : Event) (users : Users) (st : Storage) (user folder : String),
      ev.httpMethod = "GET" → authenticate ev users = some (user, folder) → ¬ user = "" →
      pyEndsWith ev.path "/download-folder" = true →
      truthyS ((ev.queryStringParameters.getD []).lookup "prefix") = false →
      (lambda_handler ev users st).1.statusCode = 405) ∧
    (∀ (ev : Event) (users : Users) (st : Storage) (user folder : String),
      ev.httpMethod = "DELETE" → authenticate ev users = some (user, folder) → ¬ user = "" →
      pyEndsWith ev.path "/delete-folder" = true →
      truthyS ((ev.queryStringParameters.getD []).lookup "prefix") = false →
      (lambda_handler ev users st).1.statusCode = 405) := by
  refine ⟨?_, ?_, ?_, ?_, ?_⟩
  · intro ev users st user folder hme hauth huser hput hfn
    rw [handler_put_missing ev users st user folder hme hauth huser hput hfn]
    rfl
  · intro ev users st user folder hme hauth huser hget hfn
    rw [handler_no_route ev users st user folder
      (by rw [hme]; decide)
      hauth huser
      (by rw [hme]; simp [pyEndsWith_false_of ev.path "/put" "/get" hget (by decide)])
      (and_right_false _ _ _ hfn)
      (by simp [pyEndsWith_false_of ev.path "/list" "/get" hget (by decide)])
      (by simp [pyEndsWith_false_of ev.path "/list-files" "/get" hget (by decide)])
      (by simp [pyEndsWith_false_of ev.path "/download-folder" "/get" hget (by decide)])
      (by rw [hme]; simp)
      (by rw [hme]; simp)]
    rfl
  · intro ev users st user folder hme hauth huser hdel hfn
    rw [handler_no_route ev users st user folder
      (by rw [hme]; decide)
      hauth huser
      (by rw [hme]; simp)
      (by rw [hme]; simp)
      (by rw [hme]; simp)
      (by rw [hme]; simp)
      (by rw [hme]; simp)
      (and_right_false _ _ _ hfn)
      (by simp [pyEndsWith_false_of ev.path "/delete-folder" "/delete" hdel (by decide)])]
    rfl
  · intro ev users st user folder hme hauth huser hdl hfn
    rw [handler_no_route ev users st user folder
      (by rw [hme]; decide)
      hauth huser
      (by rw [hme]; simp)
      (by simp [pyEndsWith_false_of ev.path "/get" "/download-folder" hdl (by decide)])
      (by simp [pyEndsWith_false_of ev.path "/list" "/download-folder" hdl (by decide)])
      (by simp [pyEndsWith_false_of ev.path "/list-files" "/download-folder" hdl (by decide)])
      (and_right_false _ _ _ hfn)
      (by rw [hme]; simp)
      (by rw [hme]; simp)]
    rfl
  · intro ev users st user folder hme hauth huser hdf hfn
    rw [handler_no_route ev users st user folder
      (by rw [hme]; decide)
      hauth huser
      (by rw [hme]; simp)
      (by rw [hme]; simp)
      (by rw [hme]; simp)
      (by rw [hme]; simp)
      (by rw [hme]; simp)
      (by simp [pyEndsWith_false_of ev.path "/delete" "/delete-folder" hdf (by decide)])
      (and_right_false _ _ _ hfn)]
    rfl

/-- C4 witness: the amended behavior at concrete requests — PUT `/put`
without filename gives 400; GET `/get`, DELETE `/delete` without filename
and GET `/download-folder`, DELETE `/delete-folder` without prefix give 405. -/
theorem c4_witness :
    (lambda_handler ⟨"PUT", "/put", none, some [("Authorization", "Basic YWxpY2U6cHc=")], none⟩
      [("alice", ⟨"pw", "alice/"⟩)] []).1.statusCode = 400 ∧
    (lambda_handler ⟨"GET", "/get", none, some [("Authorization", "Basic YWxpY2U6cHc=")], none⟩
      [("alice", ⟨"pw", "alice/"⟩)] []).1.statusCode = 405 ∧
    (lambda_handler ⟨"DELETE", "/delete", none, some [("Authorization", "Basic YWxpY2U6cHc=")], none⟩
      [("alice", ⟨"pw", "alice/"⟩)] []).1.statusCode = 405 ∧
    (lambda_handler ⟨"GET", "/download-folder", none,
      some [("Authorization", "Basic YWxpY2U6cHc=")], none⟩
      [("alice", ⟨"pw", "alice/"⟩)] []).1.statusCode = 405 ∧
    (lambda_handler ⟨"DELETE", "/delete-folder", none,
      some [("Authorization", "Basic YWxpY2U6cHc=")], none⟩
      [("alice", ⟨"pw", "alice/"⟩)] []).1.statusCode = 405 :=
  ⟨c4_missing_param_amended.1
      ⟨"PUT", "/put", none, some [("Authorization", "Basic YWxpY2U6cHc=")], none⟩
      [("alice", ⟨"pw", "alice/"⟩)] [] "alice" "alice/" rfl (by decide) (by decide) (by decide)
      (by decide),
    c4_missing_param_amended.2.1
      ⟨"GET", "/get", none, some [("Authorization", "Basic YWxpY2U6cHc=")], none⟩
      [("alice", ⟨"pw", "alice/"⟩)] [] "alice" "alice/" rfl (by decide) (by decide) (by decide)
      (by decide),
    c4_missing_param_amended.2.2.1
      ⟨"DELETE", "/delete", none, some [("Authorization", "Basic YWxpY2U6cHc=")], none⟩
      [("alice", ⟨"pw", "alice/"⟩)] [] "alice" "alice/" rfl (by decide) (by decide) (by decide)
      (by decide),
    c4_missing_param_amended.2.2.2.1
      ⟨"GET", "/download-folder", none, some [("Authorization", "Basic YWxpY2U6cHc=")], none⟩
      [("alice", ⟨"pw", "alice/"⟩)] [] "alice" "alice/" rfl (by decide) (by decide) (by decide)
      (by decide),
    c4_missing_param_amended.2.2.2.2
      ⟨"DELETE", "/delete-folder", none, some [("Authorization", "Basic YWxpY2U6cHc=")], none⟩
      [("alice", ⟨"pw", "alice/"⟩)] [] "alice" "alice/" rfl (by decide) (by decide) (by decide)
      (by decide)⟩

/-- C1 counterexample: with filename `d/` (a folder marker) and B the empty
byte string, the PUT succeeds and the subsequent GET returns 200, but its
body is the base64 of the single-space placeholder, not `base64 B`: the
handler substituted `b" "` for the empty decoded body because the filename
ends with `/`. -/
theorem c1_counterexample :
    (lambda_handler ⟨"GET", "/get", some [("filename", "d/")],
        some [("Authorization", "Basic YWxpY2U6cHc=")], none⟩
      [("alice", ⟨"pw", "alice/"⟩)]
      (lambda_handler ⟨"PUT", "/put", some [("filename", "d/")],
          some [("Authorization", "Basic YWxpY2U6cHc=")], some (b64encode [])⟩
        [("alice", ⟨"pw", "alice/"⟩)] []).2.1).1.statusCode = 200 ∧
    (lambda_handler ⟨"GET", "/get", some [("filename", "d/")],
        some [("Authorization", "Basic YWxpY2U6cHc=")], none⟩
      [("alice", ⟨"pw", "alice/"⟩)]
      (lambda_handler ⟨"PUT", "/put", some [("filename", "d/")],
          some [("Authorization", "Basic YWxpY2U6cHc=")], some (b64encode [])⟩
        [("alice", ⟨"pw", "alice/"⟩)] []).2.1).1.body = b64encode [32] ∧
    ¬ b64encode [32] = b64encode [] := by decide

/-- C1 amended: for every user, every truthy filename and every byte string
B such that it is not the case that the filename ends with `/` while B is
empty, uploading `base64 B` at the filename and then downloading the same
filename gives 200 with a base64 body equal to `base64 B` (the downloaded
bytes are exactly the uploaded bytes); in the excluded folder-marker case
the stored object is the single-space placeholder instead. -/
theorem c1_roundtrip_amended (users : Users) (st : Storage) (evPut evGet : Event)
    (user folder name : String) (B : Bytes)
    (hBlt : ∀ b ∈ B, b < 256)
    (hnx : ¬ (pyEndsWith name "/" = true ∧ B = []))
    (hme1 : evPut.httpMethod = "PUT") (hp1 : pyEndsWith evPut.path "/put" = true)
    (ha1 : authenticate evPut users = some (user, folder)) (hu : ¬ user = "")
    (hf1 : (evPut.queryStringParameters.getD []).lookup "filename" = some name)
    (hn : ¬ name = "")
    (hb1 : evPut.body = some (b64encode B))
    (hme2 : evGet.httpMethod = "GET") (hp2 : pyEndsWith evGet.path "/get" = true)
    (ha2 : authenticate evGet users = some (user, folder))
    (hf2 : (evGet.queryStringParameters.getD []).lookup "filename" = some name) :
    (lambda_handler evPut users st).1.statusCode = 200 ∧
    (lambda_handler evGet users (lambda_handler evPut users st).2.1).1.statusCode = 200 ∧
    (lambda_handler evGet users (lambda_handler evPut users st).2.1).1.body = b64encode B ∧
    (lambda_handler evGet users (lambda_handler evPut users st).2.1).1.isBase64Encoded = true := by
  have hdec : pyB64decode? (evPut.body.getD "") = some B := by
    rw [hb1]
    exact pyB64decode_encode B hBlt
  have hcontent : (if pyEndsWith name "/" && B.isEmpty then [32] else B) = B := by
    cases he : pyEndsWith name "/"
    · simp
    · cases B with
      | nil => exact absurd ⟨he, rfl⟩ hnx
      | cons b t => simp [List.isEmpty]
  rw [handler_put evPut users st user folder name B hme1 ha1 hu hp1 hf1 hn hdec]
  have hobj : s3get (s3put st (normalize_key folder name)
      (if pyEndsWith name "/" && B.isEmpty then [32] else B)) (normalize_key folder name) =
      some B := by
    rw [s3get_s3put, hcontent]
  rw [handler_get_found evGet users _ user folder name B hme2 ha2 hu hp2 hf2 hn hobj]
  exact ⟨rfl, rfl, rfl, rfl⟩

/-- C1 witness: the spec's scenario — alice uploads `"hi"` (base64 `aGk=`)
as `doc.txt` and downloads it back, receiving 200 with base64 body `aGk=`. -/
theorem c1_witness :
    (lambda_handler ⟨"PUT", "/put", some [("filename", "doc.txt")],
        some [("Authorization", "Basic YWxpY2U6cHc=")], some (b64encode [104, 105])⟩
      [("alice", ⟨"pw", "alice/"⟩)] []).1.statusCode = 200 ∧
    (lambda_handler ⟨"GET", "/get", some [("filename", "doc.txt")],
        some [("Authorization", "Basic YWxpY2U6cHc=")], none⟩
      [("alice", ⟨"pw", "alice/"⟩)]
      (lambda_handler ⟨"PUT", "/put", some [("filename", "doc.txt")],
          some [("Authorization", "Basic YWxpY2U6cHc=")], some (b64encode [104, 105])⟩
        [("alice", ⟨"pw", "alice/"⟩)] []).2.1).1.statusCode = 200 ∧
    (lambda_handler ⟨"GET", "/get", some [("filename", "doc.txt")],
        some [("Authorization", "Basic YWxpY2U6cHc=")], none⟩
      [("alice", ⟨"pw", "alice/"⟩)]
      (lambda_handler ⟨"PUT", "/put", some [("filename", "doc.txt")],
          some [("Authorization", "Basic YWxpY2U6cHc=")], some (b64encode [104, 105])⟩
        [("alice", ⟨"pw", "alice/"⟩)] []).2.1).1.body = b64encode [104, 105] ∧
    (lambda_handler ⟨"GET", "/get", some [("filename", "doc.txt")],
        some [("Authorization", "Basic YWxpY2U6cHc=")], none⟩
      [("alice", ⟨"pw", "alice/"⟩)]
      (lambda_handler ⟨"PUT", "/put", some [("filename", "doc.txt")],
          some [("Authorization", "Basic YWxpY2U6cHc=")], some (b64encode [104, 105])⟩
        [("alice", ⟨"pw", "alice/"⟩)] []).2.1).1.isBase64Encoded = true :=
  c1_roundtrip_amended [("alice", ⟨"pw", "alice/"⟩)] []
    ⟨"PUT", "/put", some [("filename", "doc.txt")],
      some [("Authorization", "Basic YWxpY2U6cHc=")], some (b64encode [104, 105])⟩
    ⟨"GET", "/get", some [("filename", "doc.txt")],
      some [("Authorization", "Basic YWxpY2U6cHc=")], none⟩
    "alice" "alice/" "doc.txt" [104, 105]
    (by decide) (by decide) rfl (by decide) (by decide) (by decide) (by decide) (by decide)
    rfl rfl (by decide) (by decide) (by decide)
